import Mathlib

/-!
Verification of the FlowDash account-lifecycle and authorization model.

The repository has two implementations of the same lifecycle:
  * a server mock (`src/backend/src/controllers/auth.controller.js`), whose
    module-level mutable `users` array and `pendingVerifications` Map are
    modelled here as an explicit `BackendState` threaded through each
    operation (the JS functions close over that mutable state);
  * a client-side simulation (`src/unnamed/part_001`, AuthContext.tsx),
    whose localStorage-backed records are modelled as an explicit
    `ClientState`.

External collaborators are modelled as executable stand-ins:
  * `bcryptHash` models bcryptjs hashing as a deterministic injective
    encoding (the claims only depend on compare(p, hash(p)) round-tripping,
    never on the bcrypt format or cost factor);
  * `btoa` models the browser base64 encoder as an injective encoding (no
    claim inspects the base64 alphabet);
  * randomness (`crypto.randomBytes`, `Math.random`) and the clock
    (`Date.now()`) are passed in as explicit `fresh`/`now` arguments.
-/

namespace FlowDash

/-- Association-list model of a JS `Map` (or a plain object used as a map):
lookup of the first binding for a key. -/
def mapGet {α : Type} (k : String) : List (String × α) → Option α
  | [] => none
  | (k', v) :: rest => if k' = k then some v else mapGet k rest

/-- `Map.set` / object field assignment: overwrite the existing binding in
place, or append a new one. -/
def mapSet {α : Type} (k : String) (v : α) : List (String × α) → List (String × α)
  | [] => [(k, v)]
  | (k', v') :: rest => if k' = k then (k, v) :: rest else (k', v') :: mapSet k v rest

/-- `Map.delete` / `delete obj[k]`: drop every binding for the key. -/
def mapDelete {α : Type} (k : String) (m : List (String × α)) : List (String × α) :=
  m.filter (fun p => !(p.1 == k))

/-- Mutating the first array element matching a predicate, as
`users.find(...)` followed by field assignment does in JS. -/
def updateFirst {α : Type} (p : α → Bool) (f : α → α) : List α → List α
  | [] => []
  | u :: rest => if p u then f u :: rest else u :: updateFirst p f rest

/-- JS whitespace (the characters of the regex class `\s` and of
`String.prototype.trim` relevant to this code base). -/
def isJsSpace (c : Char) : Bool :=
  c = ' ' || c = '\t' || c = '\n' || c = '\r' || c = '\x0b' || c = '\x0c'

/-- JS `String.prototype.trim`: strip leading and trailing whitespace. -/
def jsTrim (s : String) : String :=
  ⟨(((s.data.dropWhile isJsSpace).reverse).dropWhile isJsSpace).reverse⟩

/-- JS `String.prototype.toLowerCase` (ASCII case folding, which is all
this code base uses). -/
def jsToLower (s : String) : String := ⟨s.data.map Char.toLower⟩

/-- `email.toLowerCase().trim()` — normalization applied by every endpoint. -/
def normalizeEmail (email : String) : String := jsTrim (jsToLower email)

/-- The signup email check `/^[^\s@]+@[^\s@]+\.[^\s@]+$/.test(email)`:
exactly one `@`, a nonempty local part and a nonempty domain neither of
which contains whitespace, and a `.` in the domain that is neither its
first nor its last character (the `[^\s@]` classes admit further dots). -/
def matchesEmailRegex (s : String) : Bool :=
  let cs := s.data
  let lpart := cs.takeWhile (fun c => !(c = '@'))
  match cs.dropWhile (fun c => !(c = '@')) with
  | '@' :: dpart =>
      !lpart.isEmpty && !dpart.isEmpty &&
      dpart.all (fun c => !(c = '@')) &&
      lpart.all (fun c => !isJsSpace c) &&
      dpart.all (fun c => !isJsSpace c) &&
      ((dpart.drop 1).dropLast.contains '.')
  | _ => false

/-- Model of `bcrypt.hash` / `bcrypt.hashSync`: deterministic injective
encoding standing in for the salted hash (cost factor elided). -/
def bcryptHash (password : String) : String := "bcrypt$" ++ password

/-- Model of `bcrypt.compare(password, storedHash)`. -/
def bcryptCompare (password storedHash : String) : Bool :=
  storedHash == bcryptHash password

/-- Model of `jwt.sign({userId, email, role}, JWT_SECRET, {expiresIn})`. -/
def jwtSign (userId email role : String) : String :=
  "jwt." ++ userId ++ "." ++ email ++ "." ++ role

/-- One record of the backend mock users array. -/
structure Account where
  id : String
  email : String
  password : String
  name : String
  role : String
  department : String
  title : String
  isVerified : Bool
  createdAt : String
  deriving DecidableEq

/-- One entry of the backend `pendingVerifications` Map (used for both the
verification namespace `email` and the reset namespace `reset_<email>`). -/
structure PendingEntry where
  token : String
  expiry : Nat
  userId : String
  deriving DecidableEq

/-- The backend controller module state: the mutable `users` array and the
`pendingVerifications` Map. -/
structure BackendState where
  users : List Account
  pendingVerifications : List (String × PendingEntry)
  deriving DecidableEq

/-- The pre-seeded operator demo account of the backend mock database. -/
def operatorAccount : Account :=
  { id := "1", email := "operator@demo.com", password := bcryptHash "demo123",
    name := "Alex Operator", role := "operator", department := "Operations",
    title := "Operations Specialist", isVerified := true,
    createdAt := "2024-01-15T00:00:00.000Z" }

/-- The pre-seeded manager demo account of the backend mock database. -/
def managerAccount : Account :=
  { id := "2", email := "manager@demo.com", password := bcryptHash "demo123",
    name := "Sarah Manager", role := "manager", department := "Management",
    title := "Team Manager", isVerified := true,
    createdAt := "2024-01-10T00:00:00.000Z" }

/-- The pre-seeded director demo account of the backend mock database. -/
def directorAccount : Account :=
  { id := "3", email := "director@demo.com", password := bcryptHash "demo123",
    name := "James Director", role := "director", department := "Executive",
    title := "Director of Operations", isVerified := true,
    createdAt := "2024-01-01T00:00:00.000Z" }

/-- The three pre-seeded demo accounts of the backend mock database. -/
def initialUsers : List Account :=
  [operatorAccount, managerAccount, directorAccount]

/-- The backend module state at load time: demo users, empty token Map. -/
def initialState : BackendState :=
  { users := initialUsers, pendingVerifications := [] }

/-- JSON response shape shared by the non-login endpoints: HTTP status,
`success`, `message`, optional `requiresVerification`. -/
structure ApiResponse where
  status : Nat
  success : Bool
  message : String
  requiresVerification : Bool := false
  deriving DecidableEq

/-- The user object returned by login: the account record minus its
`password` field (the JS `const
\x7b password: _, ...userData \x7d = user` destructuring). -/
structure PublicUser where
  id : String
  email : String
  name : String
  role : String
  department : String
  title : String
  isVerified : Bool
  createdAt : String
  deriving DecidableEq

/-- Drop the password hash from an account record. -/
def stripPassword (u : Account) : PublicUser :=
  { id := u.id, email := u.email, name := u.name, role := u.role,
    department := u.department, title := u.title,
    isVerified := u.isVerified, createdAt := u.createdAt }

/-- Login response: status, flags, and on success a token and the
password-free user record. -/
structure LoginResponse where
  status : Nat
  success : Bool
  message : String
  requiresVerification : Bool := false
  token : Option String := none
  user : Option PublicUser := none
  deriving DecidableEq

/-- Backend `signup(req, res)`: validates presence, email format and
password length, rejects duplicate normalized emails, then stores the new
unverified account and its verification token. `now` is `Date.now()`,
`freshToken` the random verification token, `freshId` the generated id. -/
def signup (s : BackendState) (name email password : String) (now : Nat)
    (freshToken freshId : String) : ApiResponse × BackendState :=
  if name == "" || email == "" || password == "" then
    ({ status := 400, success := false,
       message := "Name, email and password are required" }, s)
  else if !matchesEmailRegex email then
    ({ status := 400, success := false,
       message := "Please enter a valid email address" }, s)
  else if password.length < 6 then
    ({ status := 400, success := false,
       message := "Password must be at least 6 characters" }, s)
  else
    let normalizedEmail := normalizeEmail email
    match s.users.find? (fun u => u.email == normalizedEmail) with
    | some _ =>
        ({ status := 409, success := false,
           message := "An account with this email already exists" }, s)
    | none =>
        let newUser : Account :=
          { id := freshId, email := normalizedEmail,
            password := bcryptHash password, name := jsTrim name,
            role := "operator", department := "General",
            title := "Team Member", isVerified := false,
            createdAt := toString now }
        ({ status := 201, success := true,
           message := "Account created! Please check your email to verify your account.",
           requiresVerification := true },
         { users := s.users ++ [newUser],
           pendingVerifications :=
             mapSet normalizedEmail
               ({ token := freshToken, expiry := now + 24 * 60 * 60 * 1000,
                  userId := freshId })
               s.pendingVerifications })

/-- Backend `verifyEmail(req, res)`: looks up the pending verification for
the normalized email, rejects absence, mismatch, or expiry (deleting the
entry on expiry), and on success marks the account verified and deletes
the token. -/
def verifyEmail (s : BackendState) (email token : String) (now : Nat) :
    ApiResponse × BackendState :=
  if email == "" || token == "" then
    ({ status := 400, success := false,
       message := "Email and token are required" }, s)
  else
    let e := normalizeEmail email
    match mapGet e s.pendingVerifications with
    | none =>
        ({ status := 400, success := false,
           message := "Verification link is invalid or has expired" }, s)
    | some pending =>
        if pending.token != token then
          ({ status := 400, success := false,
             message := "Invalid verification token" }, s)
        else if now > pending.expiry then
          ({ status := 400, success := false,
             message := "Verification link has expired. Please sign up again." },
           { s with pendingVerifications := mapDelete e s.pendingVerifications })
        else
          ({ status := 200, success := true,
             message := "Email verified successfully! You can now log in." },
           { users := updateFirst (fun u => u.email == e)
               (fun u => { u with isVerified := true }) s.users,
             pendingVerifications := mapDelete e s.pendingVerifications })

/-- Backend `login(req, res)`: missing fields, unknown email, unverified
account, wrong password, then success with a JWT and the password-free
user record. Login never mutates the state. -/
def login (s : BackendState) (email password : String) : LoginResponse :=
  if email == "" || password == "" then
    { status := 400, success := false, message := "Email and password are required" }
  else
    match s.users.find? (fun u => u.email == normalizeEmail email) with
    | none =>
        { status := 401, success := false, message := "No account found with this email" }
    | some user =>
        if !user.isVerified then
          { status := 403, success := false,
            message := "Please verify your email before logging in",
            requiresVerification := true }
        else if !bcryptCompare password user.password then
          { status := 401, success := false, message := "Incorrect password" }
        else
          { status := 200, success := true, message := "Login successful",
            token := some (jwtSign user.id user.email user.role),
            user := some (stripPassword user) }

/-- The generic response body of the forgot-password endpoint. -/
def resetGenericMessage : String :=
  "If an account exists with this email, you will receive a reset link."

/-- Backend `requestPasswordReset(req, res)`: for a provided email it
always answers with the same generic 200 body; internally it mints a
1-hour reset token under the `reset_<email>` key only when the account
exists. -/
def requestPasswordReset (s : BackendState) (email : String) (now : Nat)
    (freshToken : String) : ApiResponse × BackendState :=
  if email == "" then
    ({ status := 400, success := false, message := "Email is required" }, s)
  else
    let e := normalizeEmail email
    match s.users.find? (fun u => u.email == e) with
    | none =>
        ({ status := 200, success := true, message := resetGenericMessage }, s)
    | some user =>
        let entry : PendingEntry :=
          { token := freshToken, expiry := now + 60 * 60 * 1000, userId := user.id }
        ({ status := 200, success := true, message := resetGenericMessage },
         { s with pendingVerifications :=
             mapSet ("reset_" ++ e) entry s.pendingVerifications })

/-- Backend `validateResetToken(req, res)`: checks the `reset_<email>`
entry for absence, mismatch, and expiry; on expiry it deletes the entry
before answering. -/
def validateResetToken (s : BackendState) (email token : String) (now : Nat) :
    ApiResponse × BackendState :=
  if email == "" || token == "" then
    ({ status := 400, success := false,
       message := "Email and token are required" }, s)
  else
    let key := "reset_" ++ normalizeEmail email
    match mapGet key s.pendingVerifications with
    | none =>
        ({ status := 400, success := false,
           message := "Invalid or expired reset link" }, s)
    | some pending =>
        if pending.token != token then
          ({ status := 400, success := false, message := "Invalid reset token" }, s)
        else if now > pending.expiry then
          ({ status := 400, success := false, message := "Reset link has expired" },
           { s with pendingVerifications := mapDelete key s.pendingVerifications })
        else
          ({ status := 200, success := true, message := "Token is valid" }, s)

/-- Backend `resetPassword(req, res)`: field presence, password length,
then the same absent/mismatch/expired checks as `validateResetToken`; on
success it rehashes the first matching account's password (if any) and
deletes the reset token. -/
def resetPassword (s : BackendState) (email token newPassword : String) (now : Nat) :
    ApiResponse × BackendState :=
  if email == "" || token == "" || newPassword == "" then
    ({ status := 400, success := false,
       message := "Email, token and new password are required" }, s)
  else if newPassword.length < 6 then
    ({ status := 400, success := false,
       message := "Password must be at least 6 characters" }, s)
  else
    let e := normalizeEmail email
    let key := "reset_" ++ e
    match mapGet key s.pendingVerifications with
    | none =>
        ({ status := 400, success := false,
           message := "Invalid or expired reset link" }, s)
    | some pending =>
        if pending.token != token then
          ({ status := 400, success := false, message := "Invalid reset token" }, s)
        else if now > pending.expiry then
          ({ status := 400, success := false, message := "Reset link has expired" },
           { s with pendingVerifications := mapDelete key s.pendingVerifications })
        else
          ({ status := 200, success := true,
             message := "Password has been reset successfully" },
           { users := updateFirst (fun u => u.email == e)
               (fun u => { u with password := bcryptHash newPassword }) s.users,
             pendingVerifications := mapDelete key s.pendingVerifications })

/-- The three roles of the client-side RBAC system. -/
inductive UserRole
  | operator
  | manager
  | director
  deriving DecidableEq

/-- The permission names of the client-side RBAC system. -/
inductive Permission
  | view_dashboard
  | view_tasks
  | create_tasks
  | edit_tasks
  | delete_tasks
  | assign_tasks
  | view_team
  | manage_team
  | view_performance
  | manage_performance
  | view_assessments
  | create_assessments
  | edit_assessments
  | view_reports
  | create_reports
  | edit_reports
  | export_reports
  | view_settings
  | manage_settings
  | view_all_data
  | manage_organization
  deriving DecidableEq

/-- The static `ROLE_PERMISSIONS` table of AuthContext.tsx, verbatim. -/
def ROLE_PERMISSIONS : UserRole → List Permission
  | .operator =>
      [ .view_dashboard, .view_tasks, .view_performance, .view_assessments,
        .view_settings ]
  | .manager =>
      [ .view_dashboard, .view_tasks, .create_tasks, .edit_tasks,
        .assign_tasks, .view_team, .manage_team, .view_performance,
        .manage_performance, .view_assessments, .create_assessments,
        .edit_assessments, .view_reports, .create_reports, .edit_reports,
        .view_settings ]
  | .director =>
      [ .view_dashboard, .view_tasks, .create_tasks, .edit_tasks,
        .delete_tasks, .assign_tasks, .view_team, .manage_team,
        .view_performance, .manage_performance, .view_assessments,
        .create_assessments, .edit_assessments, .view_reports,
        .create_reports, .edit_reports, .export_reports, .view_settings,
        .manage_settings, .view_all_data, .manage_organization ]

/-- Model of the browser `btoa` base64 encoder as an injective encoding
(no claim depends on the base64 alphabet, only on distinctness). -/
def btoa (s : String) : String := "base64:" ++ s

/-- Client-side `hashPassword`: `btoa(password + "_flowdash_salt_2024")`. -/
def hashPassword (password : String) : String :=
  btoa (password ++ "_flowdash_salt_2024")

/-- The client `User` interface (fields the lifecycle reads); `isVerified`
is optional in the TypeScript interface, hence `Option Bool`. -/
structure ClientUser where
  id : String
  email : String
  name : String
  role : UserRole
  department : String := ""
  title : String := ""
  isVerified : Option Bool := none
  createdAt : String := ""
  deriving DecidableEq

/-- The client `StoredUser` record: hashed password plus profile. -/
structure StoredUser where
  hashedPassword : String
  user : ClientUser
  verificationToken : Option String := none
  deriving DecidableEq

/-- One entry of the client pending-verifications record. -/
structure ClientPending where
  token : String
  email : String
  expiresAt : Nat
  deriving DecidableEq

/-- One entry of the client password-reset-tokens record. -/
structure ResetEntry where
  token : String
  expiresAt : Nat
  deriving DecidableEq

/-- The mutable localStorage-backed client state: registered users,
pending email verifications, and password-reset tokens. The pre-seeded
`DEMO_USERS` record is a module constant, not part of this mutable state. -/
structure ClientState where
  registered : List (String × StoredUser)
  pendingVerifications : List (String × ClientPending)
  resetTokens : List (String × ResetEntry)
  deriving DecidableEq

/-- The client state with all three localStorage records empty. -/
def emptyClientState : ClientState :=
  { registered := [], pendingVerifications := [], resetTokens := [] }

/-- The pre-seeded immutable `DEMO_USERS` record of AuthContext.tsx. -/
def DEMO_USERS : List (String × StoredUser) :=
  [ ("operator@demo.com",
     { hashedPassword := hashPassword "demo123",
       user := { id := "usr_op_001", email := "operator@demo.com",
                 name := "Alex Thompson", role := .operator,
                 department := "Engineering", title := "Software Developer",
                 isVerified := some true,
                 createdAt := "2024-01-15T10:00:00Z" } }),
    ("manager@demo.com",
     { hashedPassword := hashPassword "demo123",
       user := { id := "usr_mgr_001", email := "manager@demo.com",
                 name := "Sarah Mitchell", role := .manager,
                 department := "Engineering", title := "Engineering Manager",
                 isVerified := some true,
                 createdAt := "2024-01-10T10:00:00Z" } }),
    ("director@demo.com",
     { hashedPassword := hashPassword "demo123",
       user := { id := "usr_dir_001", email := "director@demo.com",
                 name := "Michael Chen", role := .director,
                 department := "Technology", title := "VP of Engineering",
                 isVerified := some true,
                 createdAt := "2024-01-01T10:00:00Z" } }) ]

/-- Result shape of the client lifecycle methods (`success`, optional
`error`, optional `requiresVerification`). -/
structure ClientResult where
  success : Bool
  error : Option String := none
  requiresVerification : Option Bool := none
  deriving DecidableEq

/-- Client `signup`: rejects emails already present in `DEMO_USERS` or the
registered store, then rejects passwords shorter than 6 characters;
otherwise stores the hashed password, profile and verification token.
There is no missing-field or email-format check in this implementation. -/
def clientSignup (s : ClientState) (name email password : String) (now : Nat)
    (freshToken freshId : String) : ClientResult × ClientState :=
  let e := normalizeEmail email
  if (mapGet e DEMO_USERS).isSome then
    ({ success := false, error := some "An account with this email already exists" }, s)
  else if (mapGet e s.registered).isSome then
    ({ success := false, error := some "An account with this email already exists" }, s)
  else if password.length < 6 then
    ({ success := false, error := some "Password must be at least 6 characters" }, s)
  else
    let newUser : ClientUser :=
      { id := freshId, email := e, name := jsTrim name, role := .operator,
        department := "General", title := "Team Member",
        isVerified := some false, createdAt := toString now }
    let stored : StoredUser :=
      { hashedPassword := hashPassword password, user := newUser,
        verificationToken := some freshToken }
    let pending : ClientPending :=
      { token := freshToken, email := e, expiresAt := now + 24 * 60 * 60 * 1000 }
    ({ success := true, requiresVerification := some true },
     { s with registered := mapSet e stored s.registered,
              pendingVerifications := mapSet e pending s.pendingVerifications })

/-- Client `requestPasswordReset`: unlike the backend endpoint, it returns
a distinct failure when no account (demo or registered) matches the email;
otherwise it stores a 1-hour reset token and reports success. -/
def clientRequestPasswordReset (s : ClientState) (email : String) (now : Nat)
    (freshToken : String) : ClientResult × ClientState :=
  let e := normalizeEmail email
  let userExists := (mapGet e DEMO_USERS).isSome || (mapGet e s.registered).isSome
  if !userExists then
    ({ success := false, error := some "No account found with this email" }, s)
  else
    let entry : ResetEntry := { token := freshToken, expiresAt := now + 60 * 60 * 1000 }
    ({ success := true }, { s with resetTokens := mapSet e entry s.resetTokens })

/-- Client `validateResetToken`: absence, mismatch, expiry (deleting the
expired entry), else valid. -/
def clientValidateResetToken (s : ClientState) (email token : String) (now : Nat) :
    ClientResult × ClientState :=
  let e := normalizeEmail email
  match mapGet e s.resetTokens with
  | none => ({ success := false, error := some "Invalid or expired reset link" }, s)
  | some stored =>
      if stored.token != token then
        ({ success := false, error := some "Invalid reset token" }, s)
      else if now > stored.expiresAt then
        ({ success := false, error := some "Reset link has expired" },
         { s with resetTokens := mapDelete e s.resetTokens })
      else
        ({ success := true }, s)

/-- Client `resetPassword`: validates the token via
`clientValidateResetToken`, checks the new password length, updates the
registered user's hash only when the email has a registered entry (demo
accounts are never updated), then deletes the reset token. -/
def clientResetPassword (s : ClientState) (email token newPassword : String)
    (now : Nat) : ClientResult × ClientState :=
  let e := normalizeEmail email
  let v := clientValidateResetToken s e token now
  if !v.1.success then
    ({ success := false, error := v.1.error }, v.2)
  else if newPassword.length < 6 then
    ({ success := false, error := some "Password must be at least 6 characters" }, v.2)
  else
    let registered :=
      match mapGet e v.2.registered with
      | some su => mapSet e { su with hashedPassword := hashPassword newPassword }
          v.2.registered
      | none => v.2.registered
    ({ success := true },
     { v.2 with registered := registered,
                resetTokens := mapDelete e v.2.resetTokens })

/-! ### Helper lemmas and fixture states -/

/-- Deleting a key removes every binding for it. -/
theorem mapGet_mapDelete {α : Type} (k : String) (m : List (String × α)) :
    mapGet k (mapDelete k m) = none := by
  induction m with
  | nil => rfl
  | cons p rest ih =>
      by_cases h : p.1 = k
      · simpa [mapDelete, List.filter_cons, h] using ih
      · simpa [mapDelete, List.filter_cons, h, mapGet] using ih

/-- An unverified account used as a fixture in witnesses. -/
def janeAccount : Account :=
  { id := "9", email := "jane@x.com", password := bcryptHash "secret1",
    name := "Jane", role := "operator", department := "General",
    title := "Team Member", isVerified := false, createdAt := "0" }

/-- Backend state with the unverified account and no tokens. -/
def sUnverified : BackendState :=
  { users := [janeAccount], pendingVerifications := [] }

/-- Backend state with a pending email-verification token for Jane. -/
def sPendingVerify : BackendState :=
  { users := [janeAccount],
    pendingVerifications := [("jane@x.com", { token := "tok1", expiry := 100, userId := "9" })] }

/-- Backend state with a pending password-reset token for Jane. -/
def sPendingReset : BackendState :=
  { users := [janeAccount],
    pendingVerifications := [("reset_jane@x.com", { token := "tok2", expiry := 100, userId := "9" })] }

/-! ### Claim C8 -/

/-- Claim C8: in the static role-to-permission mapping, every permission
granted to operator is also granted to manager and to director, and every
permission granted to manager is also granted to director. -/
theorem permission_monotonicity_c8 :
    (∀ p ∈ ROLE_PERMISSIONS .operator, p ∈ ROLE_PERMISSIONS .manager) ∧
    (∀ p ∈ ROLE_PERMISSIONS .operator, p ∈ ROLE_PERMISSIONS .director) ∧
    (∀ p ∈ ROLE_PERMISSIONS .manager, p ∈ ROLE_PERMISSIONS .director) := by
  decide

/-- Witness for C8 at the concrete permission `view_dashboard`. -/
theorem permission_monotonicity_c8_witness :
    Permission.view_dashboard ∈ ROLE_PERMISSIONS .operator ∧
    Permission.view_dashboard ∈ ROLE_PERMISSIONS .manager :=
  ⟨by decide, permission_monotonicity_c8.1 Permission.view_dashboard (by decide)⟩

/-! ### Claim C10 -/

/-- Client state whose only content is a live reset token for the demo
account `operator@demo.com`, which has no entry in the mutable registered
store. -/
def sDemoReset : ClientState :=
  { registered := [], pendingVerifications := [],
    resetTokens := [("operator@demo.com", { token := "rtok", expiresAt := 1000 })] }

/-- Claim C10: with a live matching reset token for an email that has no
entry in the mutable registered-user store (here the pre-seeded demo
account), `resetPassword` reports success, skips the password update
(the registered store is unchanged, and `DEMO_USERS` is an immutable
constant), and still deletes the token. -/
theorem resetPassword_success_without_hash_change_c10 :
    (clientResetPassword sDemoReset "operator@demo.com" "rtok" "newpass1" 500).1 =
      ({ success := true } : ClientResult) ∧
    (clientResetPassword sDemoReset "operator@demo.com" "rtok" "newpass1" 500).2.registered =
      sDemoReset.registered ∧
    (clientResetPassword sDemoReset "operator@demo.com" "rtok" "newpass1" 500).2.resetTokens =
      mapDelete "operator@demo.com" sDemoReset.resetTokens := by
  decide

/-! ### Claim C1 -/

/-- Counterexample to C1: the client-side `requestPasswordReset` answers a
non-existing email with a distinct failure (`No account found with this
email`) while an existing demo email gets a success, so the response
reveals account existence. -/
theorem clientRequestPasswordReset_reveals_existence_c1 :
    (clientRequestPasswordReset emptyClientState "ghost@example.com" 0 "tok").1 =
      ({ success := false, error := some "No account found with this email" } : ClientResult) ∧
    (clientRequestPasswordReset emptyClientState "operator@demo.com" 0 "tok").1 =
      ({ success := true } : ClientResult) ∧
    (clientRequestPasswordReset emptyClientState "ghost@example.com" 0 "tok").1 ≠
      (clientRequestPasswordReset emptyClientState "operator@demo.com" 0 "tok").1 := by
  decide

/-- Amended C1: the backend `requestPasswordReset` returns the identical
generic success response for every provided email and every store state,
so it never reveals account existence; the client-side implementation does
not have this property. -/
theorem requestPasswordReset_uniform_response_c1 (s : BackendState) (email : String)
    (now : Nat) (freshToken : String) (h : email ≠ "") :
    (requestPasswordReset s email now freshToken).1 =
      { status := 200, success := true, message := resetGenericMessage } := by
  simp only [requestPasswordReset, beq_iff_eq, h, if_false]
  split <;> rfl

/-- Witness for the amended C1 at a concrete email and the initial state. -/
theorem requestPasswordReset_uniform_response_c1_witness :
    ("ghost@example.com" ≠ "") ∧
    (requestPasswordReset initialState "ghost@example.com" 0 "tok").1 =
      { status := 200, success := true, message := resetGenericMessage } :=
  ⟨by decide,
   requestPasswordReset_uniform_response_c1 initialState "ghost@example.com" 0 "tok"
     (by decide)⟩

/-! ### Claim C2 -/

/-- Backend state holding one expired reset token. -/
def sExpiredReset : BackendState :=
  { users := [],
    pendingVerifications := [("reset_a@b.c", { token := "t", expiry := 5, userId := "1" })] }

/-- Counterexample to C2: calling `validateResetToken` on a state holding
an expired reset token deletes that entry, so the call is not
mutation-free. -/
theorem validateResetToken_mutates_on_expiry_c2 :
    (validateResetToken sExpiredReset "a@b.c" "t" 10).2 ≠ sExpiredReset ∧
    (validateResetToken sExpiredReset "a@b.c" "t" 10).2.pendingVerifications = [] := by
  decide

/-- Amended C2: `validateResetToken` never mutates the credential store,
and it leaves the token store unchanged in every case except an expired
matching token, which it deletes before reporting the expiry failure. -/
theorem validateResetToken_frame_c2 (s : BackendState) (email token : String) (now : Nat) :
    (validateResetToken s email token now).2.users = s.users ∧
    ((validateResetToken s email token now).2 = s ∨
     ((validateResetToken s email token now).1.message = "Reset link has expired" ∧
      (validateResetToken s email token now).2.pendingVerifications =
        mapDelete ("reset_" ++ normalizeEmail email) s.pendingVerifications)) := by
  simp only [validateResetToken]
  split
  · exact ⟨rfl, Or.inl rfl⟩
  · split
    · exact ⟨rfl, Or.inl rfl⟩
    · split
      · exact ⟨rfl, Or.inl rfl⟩
      · split
        · exact ⟨rfl, Or.inr ⟨rfl, rfl⟩⟩
        · exact ⟨rfl, Or.inl rfl⟩

/-! ### Claim C3 -/

/-- Counterexample to C3: the client-side `signup` accepts a malformed
email (no missing-field or format check exists there), returning success
instead of a validation error. -/
theorem clientSignup_accepts_malformed_email_c3 :
    matchesEmailRegex "not-an-email" = false ∧
    (clientSignup emptyClientState "Jane" "not-an-email" "secret1" 0 "tok" "id1").1 =
      ({ success := true, requiresVerification := some true } : ClientResult) := by
  decide

/-- Amended C3: the backend `signup` satisfies the claim — a missing
field, malformed email, or short password yields a 400 validation
failure, and an otherwise valid signup for an email that already has an
account yields the 409 duplicate failure; the client-side `signup` checks
only duplication and password length. -/
theorem signup_validation_c3 :
    (∀ (s : BackendState) (name email password : String) (now : Nat) (tok id : String),
       (name = "" ∨ email = "" ∨ password = "" ∨ matchesEmailRegex email = false ∨
        password.length < 6) →
       (signup s name email password now tok id).1.status = 400 ∧
       (signup s name email password now tok id).1.success = false) ∧
    (∀ (s : BackendState) (name email password : String) (now : Nat) (tok id : String),
       name ≠ "" → email ≠ "" → password ≠ "" → matchesEmailRegex email = true →
       6 ≤ password.length →
       (s.users.find? (fun u => u.email == normalizeEmail email)).isSome = true →
       (signup s name email password now tok id).1 =
         { status := 409, success := false,
           message := "An account with this email already exists" }) := by
  constructor
  · intro s name email password now tok id hval
    by_cases hg : (name == "" || email == "" || password == "") = true
    · simp [signup, hg]
    · have hg' := hg
      simp only [Bool.or_eq_true, beq_iff_eq] at hg'
      push_neg at hg'
      by_cases hre : matchesEmailRegex email = true
      · have hlen : password.length < 6 := by
          rcases hval with h | h | h | h | h
          · exact absurd h hg'.1.1
          · exact absurd h hg'.1.2
          · exact absurd h hg'.2
          · rw [hre] at h; exact absurd h (by simp)
          · exact h
        simp [signup, hg, hre, hlen]
      · have hre' : matchesEmailRegex email = false := by
          cases hx : matchesEmailRegex email
          · rfl
          · exact absurd hx hre
        simp [signup, hg, hre']
  · intro s name email password now tok id hn he hp hre hlen hdup
    rcases Option.isSome_iff_exists.mp hdup with ⟨u, hu⟩
    have hg : (name == "" || email == "" || password == "") = false := by
      simp [hn, he, hp]
    have hlen' : ¬ password.length < 6 := by omega
    simp [signup, hg, hre, hlen', hu]

/-- Witness for the amended C3: a malformed email is rejected with 400 and
a duplicate demo email with 409, at concrete inputs. -/
theorem signup_validation_c3_witness :
    (signup initialState "Jane" "bad-email" "secret1" 0 "t" "i").1.status = 400 ∧
    (signup initialState "Jane" "operator@demo.com" "secret1" 0 "t" "i").1 =
      { status := 409, success := false,
        message := "An account with this email already exists" } :=
  ⟨(signup_validation_c3.1 initialState "Jane" "bad-email" "secret1" 0 "t" "i"
      (Or.inr (Or.inr (Or.inr (Or.inl (by decide)))))).1,
   signup_validation_c3.2 initialState "Jane" "operator@demo.com" "secret1" 0 "t" "i"
     (by decide) (by decide) (by decide) (by decide) (by decide) (by decide)⟩

/-! ### Claim C4 -/

/-- Claim C4: for every account found for the normalized email that is
unverified, login fails with the 403 NotVerified response even when the
password would be correct (the password is not consulted); for every
verified account, login with the correct password succeeds and issues a
session token. -/
theorem login_verification_gating_c4 :
    (∀ (s : BackendState) (email password : String) (u : Account),
       email ≠ "" → password ≠ "" →
       s.users.find? (fun v => v.email == normalizeEmail email) = some u →
       u.isVerified = false →
       login s email password =
         { status := 403, success := false,
           message := "Please verify your email before logging in",
           requiresVerification := true }) ∧
    (∀ (s : BackendState) (email password : String) (u : Account),
       email ≠ "" → password ≠ "" →
       s.users.find? (fun v => v.email == normalizeEmail email) = some u →
       u.isVerified = true → bcryptCompare password u.password = true →
       login s email password =
         { status := 200, success := true, message := "Login successful",
           token := some (jwtSign u.id u.email u.role),
           user := some (stripPassword u) }) := by
  constructor
  · intro s email password u he hp hu hv
    simp [login, he, hp, hu, hv]
  · intro s email password u he hp hu hv hc
    simp [login, he, hp, hu, hv, hc]

/-- Witness for C4: the unverified fixture account is refused with 403
even though its stored hash matches the submitted password, and the
verified operator demo account logs in successfully. -/
theorem login_verification_gating_c4_witness :
    bcryptCompare "secret1" janeAccount.password = true ∧
    login sUnverified "jane@x.com" "secret1" =
      { status := 403, success := false,
        message := "Please verify your email before logging in",
        requiresVerification := true } ∧
    login initialState "operator@demo.com" "demo123" =
      { status := 200, success := true, message := "Login successful",
        token := some (jwtSign operatorAccount.id operatorAccount.email operatorAccount.role),
        user := some (stripPassword operatorAccount) } :=
  ⟨by decide,
   login_verification_gating_c4.1 sUnverified "jane@x.com" "secret1" janeAccount
     (by decide) (by decide) (by decide) (by decide),
   login_verification_gating_c4.2 initialState "operator@demo.com" "demo123" operatorAccount
     (by decide) (by decide) (by decide) (by decide) (by decide)⟩

/-! ### Claim C5 -/

/-- A successful email verification passed the input guard and left the
token store with the consumed entry deleted. -/
theorem verifyEmail_success_shape (s : BackendState) (email token : String) (now : Nat)
    (h : (verifyEmail s email token now).1.success = true) :
    (email == "" || token == "") = false ∧
    (verifyEmail s email token now).2.pendingVerifications =
      mapDelete (normalizeEmail email) s.pendingVerifications := by
  by_cases hg : (email == "" || token == "") = true
  · simp [verifyEmail, hg] at h
  · cases hget : mapGet (normalizeEmail email) s.pendingVerifications with
    | none => simp [verifyEmail, hg, hget] at h
    | some p =>
      by_cases htok : (p.token != token) = true
      · simp [verifyEmail, hg, hget, htok] at h
      · by_cases hexp : now > p.expiry
        · simp [verifyEmail, hg, hget, htok, hexp] at h
        · exact ⟨by simpa using hg, by simp [verifyEmail, hg, hget, htok, hexp]⟩

/-- A successful password reset passed its guards and left the token
store with the consumed reset entry deleted. -/
theorem resetPassword_success_shape (s : BackendState)
    (email token newPassword : String) (now : Nat)
    (h : (resetPassword s email token newPassword now).1.success = true) :
    (email == "" || token == "" || newPassword == "") = false ∧
    ¬ newPassword.length < 6 ∧
    (resetPassword s email token newPassword now).2.pendingVerifications =
      mapDelete ("reset_" ++ normalizeEmail email) s.pendingVerifications := by
  by_cases hg : (email == "" || token == "" || newPassword == "") = true
  · simp [resetPassword, hg] at h
  · by_cases hlen : newPassword.length < 6
    · simp [resetPassword, hg, hlen] at h
    · cases hget : mapGet ("reset_" ++ normalizeEmail email) s.pendingVerifications with
      | none => simp [resetPassword, hg, hlen, hget] at h
      | some p =>
        by_cases htok : (p.token != token) = true
        · simp [resetPassword, hg, hlen, hget, htok] at h
        · by_cases hexp : now > p.expiry
          · simp [resetPassword, hg, hlen, hget, htok, hexp] at h
          · exact ⟨by simpa using hg, hlen,
              by simp [resetPassword, hg, hlen, hget, htok, hexp]⟩

/-- With a passed input guard but no stored entry for the email,
`verifyEmail` answers the generic invalid-or-expired failure. -/
theorem verifyEmail_none_fails (s : BackendState) (email token : String) (now : Nat)
    (hg : (email == "" || token == "") = false)
    (hget : mapGet (normalizeEmail email) s.pendingVerifications = none) :
    (verifyEmail s email token now).1 =
      { status := 400, success := false,
        message := "Verification link is invalid or has expired" } := by
  simp [verifyEmail, hg, hget]

/-- With passed guards but no stored reset entry for the email,
`resetPassword` answers the generic invalid-or-expired failure. -/
theorem resetPassword_none_fails (s : BackendState)
    (email token newPassword : String) (now : Nat)
    (hg : (email == "" || token == "" || newPassword == "") = false)
    (hlen : ¬ newPassword.length < 6)
    (hget : mapGet ("reset_" ++ normalizeEmail email) s.pendingVerifications = none) :
    (resetPassword s email token newPassword now).1 =
      { status := 400, success := false,
        message := "Invalid or expired reset link" } := by
  simp [resetPassword, hg, hlen, hget]

/-- Claim C5: consuming a verification token (successful `verifyEmail`) or
a reset token (successful `resetPassword`) makes an immediate second use
of the same token fail with the generic invalid-or-expired failure rather
than silently succeed, at any later check time. -/
theorem token_single_use_c5 :
    (∀ (s : BackendState) (email token : String) (now now2 : Nat),
       (verifyEmail s email token now).1.success = true →
       (verifyEmail (verifyEmail s email token now).2 email token now2).1 =
         { status := 400, success := false,
           message := "Verification link is invalid or has expired" }) ∧
    (∀ (s : BackendState) (email token newPassword : String) (now now2 : Nat),
       (resetPassword s email token newPassword now).1.success = true →
       (resetPassword (resetPassword s email token newPassword now).2
           email token newPassword now2).1 =
         { status := 400, success := false,
           message := "Invalid or expired reset link" }) := by
  constructor
  · intro s email token now now2 h
    obtain ⟨hg, hdel⟩ := verifyEmail_success_shape s email token now h
    exact verifyEmail_none_fails _ email token now2 hg
      (by rw [hdel]; exact mapGet_mapDelete _ _)
  · intro s email token newPassword now now2 h
    obtain ⟨hg, hlen, hdel⟩ := resetPassword_success_shape s email token newPassword now h
    exact resetPassword_none_fails _ email token newPassword now2 hg hlen
      (by rw [hdel]; exact mapGet_mapDelete _ _)

/-- Witness for C5: a concrete verification token and a concrete reset
token each succeed once and fail the generic way on immediate reuse. -/
theorem token_single_use_c5_witness :
    (verifyEmail sPendingVerify "jane@x.com" "tok1" 50).1.success = true ∧
    (verifyEmail (verifyEmail sPendingVerify "jane@x.com" "tok1" 50).2 "jane@x.com" "tok1" 60).1 =
      { status := 400, success := false,
        message := "Verification link is invalid or has expired" } ∧
    (resetPassword sPendingReset "jane@x.com" "tok2" "newpass1" 50).1.success = true ∧
    (resetPassword (resetPassword sPendingReset "jane@x.com" "tok2" "newpass1" 50).2
        "jane@x.com" "tok2" "newpass1" 60).1 =
      { status := 400, success := false,
        message := "Invalid or expired reset link" } :=
  ⟨by decide,
   token_single_use_c5.1 sPendingVerify "jane@x.com" "tok1" 50 60 (by decide),
   by decide,
   token_single_use_c5.2 sPendingReset "jane@x.com" "tok2" "newpass1" 50 60 (by decide)⟩

/-! ### Claim C6 -/

/-- Claim C6: a stored token whose expiry is strictly in the past at check
time is rejected by `verifyEmail`, `validateResetToken`, and
`resetPassword` with the expiry failure even when the submitted token
value matches the stored one exactly. -/
theorem expiry_enforcement_c6 :
    (∀ (s : BackendState) (email token : String) (now : Nat) (p : PendingEntry),
       email ≠ "" → token ≠ "" →
       mapGet (normalizeEmail email) s.pendingVerifications = some p →
       p.token = token → now > p.expiry →
       (verifyEmail s email token now).1 =
         { status := 400, success := false,
           message := "Verification link has expired. Please sign up again." }) ∧
    (∀ (s : BackendState) (email token : String) (now : Nat) (p : PendingEntry),
       email ≠ "" → token ≠ "" →
       mapGet ("reset_" ++ normalizeEmail email) s.pendingVerifications = some p →
       p.token = token → now > p.expiry →
       (validateResetToken s email token now).1 =
         { status := 400, success := false, message := "Reset link has expired" }) ∧
    (∀ (s : BackendState) (email token newPassword : String) (now : Nat) (p : PendingEntry),
       email ≠ "" → token ≠ "" → newPassword ≠ "" → 6 ≤ newPassword.length →
       mapGet ("reset_" ++ normalizeEmail email) s.pendingVerifications = some p →
       p.token = token → now > p.expiry →
       (resetPassword s email token newPassword now).1 =
         { status := 400, success := false, message := "Reset link has expired" }) := by
  refine ⟨?_, ?_, ?_⟩
  · intro s email token now p he ht hget htok hexp
    simp [verifyEmail, he, ht, hget, htok, hexp]
  · intro s email token now p he ht hget htok hexp
    simp [validateResetToken, he, ht, hget, htok, hexp]
  · intro s email token newPassword now p he ht hp hlen hget htok hexp
    have hlen' : ¬ newPassword.length < 6 := by omega
    simp [resetPassword, he, ht, hp, hlen', hget, htok, hexp]

/-- Witness for C6: the fixture tokens match exactly but are checked after
their expiry timestamps, and all three operations reject them. -/
theorem expiry_enforcement_c6_witness :
    (verifyEmail sPendingVerify "jane@x.com" "tok1" 200).1 =
      { status := 400, success := false,
        message := "Verification link has expired. Please sign up again." } ∧
    (validateResetToken sPendingReset "jane@x.com" "tok2" 200).1 =
      { status := 400, success := false, message := "Reset link has expired" } ∧
    (resetPassword sPendingReset "jane@x.com" "tok2" "newpass1" 200).1 =
      { status := 400, success := false, message := "Reset link has expired" } :=
  ⟨expiry_enforcement_c6.1 sPendingVerify "jane@x.com" "tok1" 200
     { token := "tok1", expiry := 100, userId := "9" }
     (by decide) (by decide) (by decide) (by decide) (by decide),
   expiry_enforcement_c6.2.1 sPendingReset "jane@x.com" "tok2" 200
     { token := "tok2", expiry := 100, userId := "9" }
     (by decide) (by decide) (by decide) (by decide) (by decide),
   expiry_enforcement_c6.2.2 sPendingReset "jane@x.com" "tok2" "newpass1" 200
     { token := "tok2", expiry := 100, userId := "9" }
     (by decide) (by decide) (by decide) (by decide) (by decide) (by decide) (by decide)⟩

/-! ### Claim C7 -/

/-- A successful password reset implies the validation-only check on the
same state, email, token and time also succeeds. -/
theorem resetPassword_success_implies_validate (s : BackendState)
    (email token newPassword : String) (now : Nat)
    (h : (resetPassword s email token newPassword now).1.success = true) :
    (validateResetToken s email token now).1.success = true := by
  by_cases hg : (email == "" || token == "" || newPassword == "") = true
  · simp [resetPassword, hg] at h
  · by_cases hlen : newPassword.length < 6
    · simp [resetPassword, hg, hlen] at h
    · cases hget : mapGet ("reset_" ++ normalizeEmail email) s.pendingVerifications with
      | none => simp [resetPassword, hg, hlen, hget] at h
      | some p =>
        by_cases htok : (p.token != token) = true
        · simp [resetPassword, hg, hlen, hget, htok] at h
        · by_cases hexp : now > p.expiry
          · simp [resetPassword, hg, hlen, hget, htok, hexp] at h
          · have hg' := hg
            simp only [Bool.or_eq_true, beq_iff_eq] at hg'
            push_neg at hg'
            have hg2 : (email == "" || token == "") = false := by
              simp [hg'.1.1, hg'.1.2]
            simp [validateResetToken, hg2, hget, htok, hexp]

/-- Claim C7: `resetPassword` never succeeds against a token that
`validateResetToken` would reject on the same state and inputs — whenever
the validation fails (absent, mismatched, or expired token, or missing
input), the reset on the same state also fails. -/
theorem resetPassword_refines_validate_c7 (s : BackendState)
    (email token newPassword : String) (now : Nat)
    (h : (validateResetToken s email token now).1.success = false) :
    (resetPassword s email token newPassword now).1.success = false := by
  cases hr : (resetPassword s email token newPassword now).1.success with
  | false => rfl
  | true =>
      have hv := resetPassword_success_implies_validate s email token newPassword now hr
      rw [hv] at h
      exact absurd h (by decide)

/-- Witness for C7: on the initial state no reset token exists, the
validation fails, and the reset with the same inputs fails too. -/
theorem resetPassword_refines_validate_c7_witness :
    (validateResetToken initialState "jane@x.com" "t" 0).1.success = false ∧
    (resetPassword initialState "jane@x.com" "t" "newpass1" 0).1.success = false :=
  ⟨by decide,
   resetPassword_refines_validate_c7 initialState "jane@x.com" "t" "newpass1" 0 (by decide)⟩

/-! ### Claim C9 -/

/-- Claim C9: every successful login returns the found account record with
the password hash stripped — the response user is `stripPassword u`, a
`PublicUser`, a record type that has no password field at all, so the
stored hash is never part of the response. -/
theorem login_excludes_password_hash_c9 (s : BackendState) (email password : String)
    (h : (login s email password).success = true) :
    ∃ u, s.users.find? (fun v => v.email == normalizeEmail email) = some u ∧
      (login s email password).user = some (stripPassword u) := by
  by_cases hg : (email == "" || password == "") = true
  · simp [login, hg] at h
  · cases hu : s.users.find? (fun v => v.email == normalizeEmail email) with
    | none => simp [login, hg, hu] at h
    | some u =>
      by_cases hv : u.isVerified = true
      · by_cases hc : bcryptCompare password u.password = true
        · exact ⟨u, rfl, by simp [login, hg, hu, hv, hc]⟩
        · simp [login, hg, hu, hv, hc] at h
      · simp [login, hg, hu, hv] at h

/-- Witness for C9 at the operator demo login. -/
theorem login_excludes_password_hash_c9_witness :
    ∃ u, initialState.users.find?
        (fun v => v.email == normalizeEmail "operator@demo.com") = some u ∧
      (login initialState "operator@demo.com" "demo123").user = some (stripPassword u) :=
  login_excludes_password_hash_c9 initialState "operator@demo.com" "demo123" (by decide)

end FlowDash
